import Mathlib

/-!
Shallow embedding of the deepsolv extraction pipeline (Python sources under
`app/`), covering the URL normalizer, the HTTP fetch retry loops, the
product / FAQ / social / contact extractors, the orchestrator's merge step,
and the competitor similarity scorer.  Network I/O, HTML parsing
(BeautifulSoup) and the optional LLM enrichment client are modelled as
explicit oracle inputs; everything the Python code computes from their
results is translated directly.
-/

namespace Deepsolv

/-! ## Data model — app/models/schemas.py -/

/-- A built variant dict as assembled by `ProductExtractor._parse_product_json`
(`{'id', 'title', 'price', 'available', 'sku'}`).  The stored `available`
entry is recorded by its Python truthiness. -/
structure VariantDict where
  id : Option String := none
  title : Option String := none
  price : Option String := none
  available : Bool := true
  sku : Option String := none
deriving DecidableEq, Repr

/-- `ProductSchema` from app/models/schemas.py.  `variants` holds the dicts
built by the JSON parser. -/
structure ProductSchema where
  id : Option String := none
  title : String
  handle : Option String := none
  description : Option String := none
  price : Option String := none
  compare_at_price : Option String := none
  vendor : Option String := none
  product_type : Option String := none
  tags : List String := []
  images : List String := []
  variants : List VariantDict := []
  available : Bool := true
  url : Option String := none
deriving DecidableEq, Repr

/-- `FAQSchema` from app/models/schemas.py. -/
structure FAQSchema where
  question : String
  answer : String
  category : Option String := none
deriving DecidableEq, Repr

/-- `SocialHandlesSchema` from app/models/schemas.py: one optional handle per
fixed platform. -/
structure SocialHandlesSchema where
  instagram : Option String := none
  facebook : Option String := none
  twitter : Option String := none
  tiktok : Option String := none
  youtube : Option String := none
  linkedin : Option String := none
  pinterest : Option String := none
deriving DecidableEq, Repr

/-- `ContactDetailsSchema` from app/models/schemas.py. -/
structure ContactDetailsSchema where
  emails : List String := []
  phone_numbers : List String := []
  address : Option String := none
  support_hours : Option String := none
deriving DecidableEq, Repr

/-- `ImportantLinksSchema` from app/models/schemas.py. -/
structure ImportantLinksSchema where
  order_tracking : Option String := none
  contact_us : Option String := none
  blogs : Option String := none
  size_guide : Option String := none
  shipping_info : Option String := none
  careers : Option String := none
  about_us : Option String := none
deriving DecidableEq, Repr

/-- `PolicySchema` from app/models/schemas.py. -/
structure PolicySchema where
  content : String
  url : Option String := none
  last_updated : Option String := none
deriving DecidableEq, Repr

/-- `BrandInsightsSchema` from app/models/schemas.py (the CanonicalRecord).
The `datetime` timestamp is modelled as a natural number. -/
structure BrandInsightsSchema where
  brand_name : Option String := none
  website_url : String
  product_catalog : List ProductSchema := []
  hero_products : List ProductSchema := []
  privacy_policy : Option PolicySchema := none
  return_policy : Option PolicySchema := none
  refund_policy : Option PolicySchema := none
  terms_of_service : Option PolicySchema := none
  faqs : List FAQSchema := []
  social_handles : SocialHandlesSchema := {}
  contact_details : ContactDetailsSchema := {}
  brand_context : Option String := none
  important_links : ImportantLinksSchema := {}
  extraction_timestamp : Nat := 0
deriving DecidableEq, Repr

/-- `CompetitorSchema` from app/models/schemas.py.  `similarity_score` is a
rational in place of the Python float. -/
structure CompetitorSchema where
  competitor_name : Option String := none
  website_url : String
  insights : BrandInsightsSchema
  similarity_score : Option Rat := none
  competitive_advantages : List String := []
deriving DecidableEq, Repr

/-! ## URL normalization — app/services/scraper.py `_normalize_url`
Python string primitives are modelled over the character list of the Lean
string (`String.data`), which mirrors Python's sequence-of-characters
view. -/

/-- Python `str.startswith(pre)`. -/
def py_startswith (s pre : String) : Bool :=
  pre.data.isPrefixOf s.data

/-- Python `s[n:]` (drop the first `n` characters). -/
def py_drop (s : String) (n : Nat) : String :=
  String.mk (s.data.drop n)

/-- Python `str.lower()` over the ASCII range. -/
def py_lower (s : String) : String :=
  String.mk (s.data.map Char.toLower)

/-- Python `str.rstrip('/')`: remove every trailing `'/'` character. -/
def rstrip_slash (s : String) : String :=
  String.mk ((s.data.reverse.dropWhile (fun c => c == '/')).reverse)

/-- `ShopifyStoreScraper._normalize_url`: prepend `https://` when the input
starts with neither `http://` nor `https://`, then `rstrip('/')`. -/
def _normalize_url (url : String) : String :=
  let url := if !(py_startswith url "http://" || py_startswith url "https://")
    then "https://" ++ url else url
  rstrip_slash url

/-! ## Validators — app/utils/validators.py -/

/-- Python `\s` over the ASCII range: space, tab, newline, carriage return,
vertical tab, form feed. -/
def is_py_space (c : Char) : Bool :=
  c == ' ' || c == '\t' || c == '\n' || c == '\r' || c == Char.ofNat 11 || c == Char.ofNat 12

/-- `validate_phone_number`: strip the separator class `[\s\-$$$$\+]`
(whitespace, hyphen, dollar sign, plus — the `$$$$` in the source is two
literal dollar signs inside the character class), then require the remainder
to match `^\d{7,15}$`. -/
def validate_phone_number (phone : String) : Bool :=
  let cleaned := phone.data.filter (fun c => !(is_py_space c || c == '-' || c == '$' || c == '+'))
  decide (7 ≤ cleaned.length) && decide (cleaned.length ≤ 15) && cleaned.all (fun c => c.isDigit)

/-- Python `str.strip()`: drop leading and trailing whitespace. -/
def py_strip (s : String) : String :=
  String.mk (((s.data.dropWhile is_py_space).reverse.dropWhile is_py_space).reverse)

/-! ## Fetcher retry loops — app/utils/http_client.py -/

/-- Outcome of one attempt inside `HTTPClient.get_page_content`: a 200
response with a body, a 404, any other status, a timeout, or another
network-level exception. -/
inductive FetchOutcome where
  | success (body : String)
  | notFound
  | httpStatus (code : Nat)
  | timeout
  | netError (msg : String)
deriving DecidableEq, Repr

/-- The per-attempt classification in `get_page_content`: `some r` when the
attempt returns `r` from the function (200 body or 404 `None`); `none` when
the attempt falls through to the retry logic (other status, timeout, other
exception). -/
def fetch_attempt_result : FetchOutcome → Option (Option String)
  | .success body => some (some body)
  | .notFound => some none
  | .httpStatus _ => none
  | .timeout => none
  | .netError _ => none

/-- The `for attempt in range(retries + 1)` loop of `get_page_content`,
indexed by the current attempt number and the number of retries still
allowed.  Returns the fetched value, the number of attempts made, and the
list of back-off sleeps (`2 ** attempt`) performed, in order. -/
def fetch_loop (oracle : Nat → FetchOutcome) (attempt : Nat) :
    Nat → Option String × Nat × List Nat
  | 0 => ((fetch_attempt_result (oracle attempt)).getD none, 1, [])
  | remaining + 1 =>
    match fetch_attempt_result (oracle attempt) with
    | some r => (r, 1, [])
    | none =>
      let rest := fetch_loop oracle (attempt + 1) remaining
      (rest.1, rest.2.1 + 1, 2 ^ attempt :: rest.2.2)

/-- `HTTPClient.get_page_content` with an explicit per-attempt outcome
oracle: run the attempt loop starting at attempt 0 with `retries` retries
remaining. -/
def get_page_content (oracle : Nat → FetchOutcome) (retries : Nat) :
    Option String × Nat × List Nat :=
  fetch_loop oracle 0 retries

/-- Outcome of one attempt inside `HTTPClient.get_json`: a 200 response that
decodes to `data`, a 404, another status, a timeout, a body that fails JSON
decoding, or another exception.  The decoded document type is abstract. -/
inductive JsonOutcome (α : Type) where
  | success (data : α)
  | notFound
  | httpStatus (code : Nat)
  | timeout
  | jsonDecodeError
  | netError (msg : String)
deriving DecidableEq, Repr

/-- The per-attempt classification in `get_json`: the `except
json.JSONDecodeError` handler returns `None` immediately, so a decode error
is a terminal outcome, unlike timeouts, other statuses and other network
errors. -/
def json_attempt_result {α : Type} : JsonOutcome α → Option (Option α)
  | .success data => some (some data)
  | .notFound => some none
  | .jsonDecodeError => some none
  | .httpStatus _ => none
  | .timeout => none
  | .netError _ => none

/-- The attempt loop of `HTTPClient.get_json`, same shape as `fetch_loop`. -/
def json_loop {α : Type} (oracle : Nat → JsonOutcome α) (attempt : Nat) :
    Nat → Option α × Nat × List Nat
  | 0 => ((json_attempt_result (oracle attempt)).getD none, 1, [])
  | remaining + 1 =>
    match json_attempt_result (oracle attempt) with
    | some r => (r, 1, [])
    | none =>
      let rest := json_loop oracle (attempt + 1) remaining
      (rest.1, rest.2.1 + 1, 2 ^ attempt :: rest.2.2)

/-- `HTTPClient.get_json` with an explicit per-attempt outcome oracle. -/
def get_json {α : Type} (oracle : Nat → JsonOutcome α) (retries : Nat) :
    Option α × Nat × List Nat :=
  json_loop oracle 0 retries

/-! ## Product JSON parsing — app/services/extractors.py
`ProductExtractor._parse_product_json` -/

/-- A variant object of the source catalog JSON.  `none` in a field means
the key is absent from the object. -/
structure SourceVariant where
  id : Option String := none
  title : Option String := none
  price : Option String := none
  available : Option Bool := none
  sku : Option String := none
deriving DecidableEq, Repr

/-- A product object of the source catalog JSON (`/products.json`).  `images`
holds each image object's optional `src`; `variants` is `none` when the
`'variants'` key is absent. -/
structure SourceProduct where
  id : Option String := none
  title : Option String := none
  handle : Option String := none
  body_html : Option String := none
  vendor : Option String := none
  product_type : Option String := none
  tags : Option String := none
  images : Option (List (Option String)) := none
  variants : Option (List SourceVariant) := none
deriving DecidableEq, Repr

/-- `urllib.parse.urljoin` for the shapes the extractor feeds it: a base of
the form `scheme://host[/...]` joined with a root-relative path replaces
everything after the host. -/
def url_root (base : String) : String :=
  let p :=
    if py_startswith base "https://" then ("https://", py_drop base 8)
    else if py_startswith base "http://" then ("http://", py_drop base 7)
    else ("", base)
  p.1 ++ String.mk (p.2.data.takeWhile (fun c => !(c == '/')))

/-- `urljoin(base, path)` restricted to the root-relative and relative paths
used in the source. -/
def urljoin (base path : String) : String :=
  if py_startswith path "/" then url_root base ++ path
  else if path == "" then base
  else base ++ "/" ++ path

/-- `ProductExtractor._parse_product_json`.  The `try/except` wrapper cannot
fire in this embedding (dictionary access with defaults never throws), so
the function is total; the built variant dicts record the truthiness of the
stored `available` entry (`variant.get('available', True)`), and
`compare_at_price` is always `None` because the built dicts carry no such
key. -/
def _parse_product_json (product_data : SourceProduct) (base_url : String) : ProductSchema :=
  let images := (product_data.images.getD []).filterMap
    (fun src => src.bind (fun s => if s == "" then none else some s))
  let variants := (product_data.variants.getD []).map (fun variant =>
    { id := variant.id, title := variant.title, price := variant.price,
      available := variant.available.getD true, sku := variant.sku : VariantDict })
  let price := variants.head?.bind (fun v => v.price)
  let compare_at_price : Option String := none
  { id := some (product_data.id.getD ""),
    title := product_data.title.getD "",
    handle := some (product_data.handle.getD ""),
    description := some (product_data.body_html.getD ""),
    price := price,
    compare_at_price := compare_at_price,
    vendor := some (product_data.vendor.getD ""),
    product_type := some (product_data.product_type.getD ""),
    tags := match product_data.tags with
      | some s => if !(s == "") then s.splitOn "," else []
      | none => [],
    images := images,
    variants := variants,
    available := if !variants.isEmpty then variants.any (fun v => v.available) else true,
    url := some (urljoin base_url ("/products/" ++ product_data.handle.getD "")) }

/-! ## FAQ extraction — app/services/extractors.py `FAQExtractor.extract_faqs`
The fetch-plus-HTML-parse of one candidate page is abstracted as an oracle
`pages : String → Option (List FAQSchema)` (`none` when the page yields no
content or the attempt raises); the LLM enrichment is abstracted as its
availability flag plus a `structure_faqs` oracle. -/

/-- The candidate FAQ URL path patterns, in source order. -/
def faq_urls : List String :=
  ["/pages/faq", "/pages/frequently-asked-questions", "/faq", "/help", "/support"]

/-- The candidate-URL loop of `extract_faqs`: accumulate parsed pairs and
stop at the first pattern after which the accumulated list is non-empty. -/
def collect_faqs (pages : String → Option (List FAQSchema)) : List String → List FAQSchema
  | [] => []
  | url_pattern :: rest =>
    match pages url_pattern with
    | some page_faqs =>
      if !page_faqs.isEmpty then page_faqs else collect_faqs pages rest
    | none => collect_faqs pages rest

/-- `FAQExtractor.extract_faqs`: collect pairs from the first productive
candidate page, optionally pass them through the LLM enrichment, then cap at
20 entries. -/
def extract_faqs (pages : String → Option (List FAQSchema)) (llm_available : Bool)
    (structure_faqs : List FAQSchema → List FAQSchema) : List FAQSchema :=
  let faqs := collect_faqs pages faq_urls
  let faqs := if !faqs.isEmpty && llm_available then structure_faqs faqs else faqs
  faqs.take 20

/-! ## Social handle extraction — app/utils/validators.py
`extract_social_handle` and app/services/extractors.py
`SocialExtractor.extract_social_handles`.  The third-party `validators.url`
check is passed in as an oracle `validate_url`; the regular expressions
`platform.com/(group)` are translated to explicit substring search plus
segment extraction. -/

/-- Index of the first position at which `needle` occurs in `hay`
(leftmost match of `re.search`). -/
def first_occurrence : List Char → List Char → Option Nat
  | [], needle => if needle.isEmpty then some 0 else none
  | a :: t, needle =>
    if needle.isPrefixOf (a :: t) then some 0
    else (first_occurrence t needle).map (· + 1)

/-- The platform patterns shared by `validators.extract_social_handle` and
`SocialExtractor`: platform name, domain needle, and the optional path heads
the regex may skip (`@?`, `(?:c/|channel/|user/)?`, `(?:company/|in/)?`),
in source dict order. -/
def social_patterns : List (String × String × List String) :=
  [("instagram", ("instagram.com/", [])),
   ("facebook", ("facebook.com/", [])),
   ("twitter", ("twitter.com/", [])),
   ("tiktok", ("tiktok.com/", ["@"])),
   ("youtube", ("youtube.com/", ["c/", "channel/", "user/"])),
   ("linkedin", ("linkedin.com/", ["company/", "in/"])),
   ("pinterest", ("pinterest.com/", []))]

/-- `re.search(needle + optional-head + '([^/?]+)', url, re.IGNORECASE)`,
restricted to the first occurrence of the domain needle: locate the needle
case-insensitively, skip one optional head if present, and return the
following non-empty segment up to `/` or `?`. -/
def pattern_group (url : String) (needle : String) (opt_heads : List String) : Option String :=
  match first_occurrence (py_lower url).data needle.data with
  | none => none
  | some i =>
    let rest := url.data.drop (i + needle.length)
    let rest :=
      match opt_heads.find? (fun p => p.data.isPrefixOf (rest.map Char.toLower)) with
      | some p => rest.drop p.length
      | none => rest
    let seg := rest.takeWhile (fun c => !(c == '/' || c == '?'))
    if seg.isEmpty then none else some (String.mk seg)

/-- `validators.extract_social_handle`: `None` for an invalid URL, the
matched group when the platform pattern matches, and the full URL as a
fallback otherwise. -/
def extract_social_handle (validate_url : String → Bool) (url platform : String) :
    Option String :=
  if validate_url url then
    match social_patterns.lookup (py_lower platform) with
    | some pat =>
      match pattern_group url pat.1 pat.2 with
      | some handle => some handle
      | none => some url
    | none => some url
  else none

/-- `setattr(social_handles, platform, handle)` over the closed platform
enumeration. -/
def set_platform (sh : SocialHandlesSchema) (platform handle : String) :
    SocialHandlesSchema :=
  if platform == "instagram" then { sh with instagram := some handle }
  else if platform == "facebook" then { sh with facebook := some handle }
  else if platform == "twitter" then { sh with twitter := some handle }
  else if platform == "tiktok" then { sh with tiktok := some handle }
  else if platform == "youtube" then { sh with youtube := some handle }
  else if platform == "linkedin" then { sh with linkedin := some handle }
  else if platform == "pinterest" then { sh with pinterest := some handle }
  else sh

/-- `getattr(social_handles, platform)` over the closed platform
enumeration. -/
def get_platform (sh : SocialHandlesSchema) (platform : String) : Option String :=
  if platform == "instagram" then sh.instagram
  else if platform == "facebook" then sh.facebook
  else if platform == "twitter" then sh.twitter
  else if platform == "tiktok" then sh.tiktok
  else if platform == "youtube" then sh.youtube
  else if platform == "linkedin" then sh.linkedin
  else if platform == "pinterest" then sh.pinterest
  else none

/-- `platform.lower() in href.lower()`: case-insensitive substring test. -/
def contains_sub (hay needle : String) : Bool :=
  (first_occurrence (py_lower hay).data (py_lower needle).data).isSome

/-- The inner platform loop of `extract_social_handles` for one hyperlink:
walk the platform dict in order; on the first platform whose name occurs in
the href AND whose `extract_social_handle` is truthy, report that platform
and handle (the `break`); otherwise keep scanning. -/
def link_match (validate_url : String → Bool) (href : String) :
    List (String × String × List String) → Option (String × String)
  | [] => none
  | (platform, _) :: rest =>
    if contains_sub href platform then
      match extract_social_handle validate_url href platform with
      | some handle =>
        if handle == "" then link_match validate_url href rest
        else some (platform, handle)
      | none => link_match validate_url href rest
    else link_match validate_url href rest

/-- One iteration of the hyperlink loop of `extract_social_handles`: the only
effect of the platform loop is a single unconditional `setattr` followed by
`break` (there is no already-set guard, unlike `LinkExtractor`). -/
def process_link (validate_url : String → Bool) (sh : SocialHandlesSchema)
    (href : String) : SocialHandlesSchema :=
  match link_match validate_url href social_patterns with
  | some ph => set_platform sh ph.1 ph.2
  | none => sh

/-- `SocialExtractor.extract_social_handles`: scan the landing page's
hyperlink targets in document order, starting from an empty record. -/
def extract_social_handles (validate_url : String → Bool) (links : List String) :
    SocialHandlesSchema :=
  links.foldl (process_link validate_url) {}

/-! ## Contact phone extraction — app/services/extractors.py
`ContactExtractor.extract_contact_details`, phone-number part.  The regex
scans of the landing-page text and of the optional contact page are
abstracted as the raw candidate lists; the validation, strip, merge and cap
logic is translated directly. -/

/-- The phone-number pipeline of `extract_contact_details`: validate and
strip the landing-page candidates and cap at 3; if the contact page yielded
text, append its validated, not-already-present candidates and cap at 3
again (`contact_phones = none` models a missing contact page or a raised
fetch error). -/
def extract_contact_phones (page_phones : List String)
    (contact_phones : Option (List String)) : List String :=
  let phone_numbers := ((page_phones.filter validate_phone_number).map py_strip).take 3
  match contact_phones with
  | none => phone_numbers
  | some additional_phones =>
    let phone_numbers := phone_numbers ++
      ((additional_phones.filter
        (fun phone => validate_phone_number phone && !(phone_numbers.contains phone))).map py_strip)
    phone_numbers.take 3

/-! ## Similarity scorer — app/services/competitor_analyzer.py
`CompetitorAnalyzer._calculate_similarity`.  The Python float arithmetic is
carried out over the rationals. -/

/-- `set(p.product_type.lower() for p in catalog if p.product_type)`. -/
def lower_type_set (catalog : List ProductSchema) : Finset String :=
  (catalog.filterMap (fun p => p.product_type.bind
    (fun t => if t == "" then none else some (py_lower t)))).toFinset

/-- The product-type signal: included only when both catalogs are non-empty
and both lower-cased type sets are non-empty; contributes the Jaccard index
of the two sets (with the source's `if union > 0` guard). -/
def product_type_signal (main_brand competitor : BrandInsightsSchema) : Option Rat :=
  if !main_brand.product_catalog.isEmpty && !competitor.product_catalog.isEmpty then
    let main_types := lower_type_set main_brand.product_catalog
    let comp_types := lower_type_set competitor.product_catalog
    if main_types ≠ ∅ ∧ comp_types ≠ ∅ then
      let overlap := (main_types ∩ comp_types).card
      let union := (main_types ∪ comp_types).card
      some (if 0 < union then (overlap : Rat) / (union : Rat) else 0)
    else none
  else none

/-- `sum(1 for v in social_handles.dict().values() if v)`: the number of
platform fields holding a truthy (present, non-empty) handle. -/
def social_platform_count (s : SocialHandlesSchema) : Nat :=
  [s.instagram, s.facebook, s.twitter, s.tiktok, s.youtube, s.linkedin, s.pinterest].countP
    (fun v => !(v.getD "" == ""))

/-- The social-platform signal: included only when both sides have a
positive platform count; contributes `min/max`. -/
def social_signal (main_brand competitor : BrandInsightsSchema) : Option Rat :=
  let main_platforms := social_platform_count main_brand.social_handles
  let comp_platforms := social_platform_count competitor.social_handles
  if 0 < main_platforms ∧ 0 < comp_platforms then
    some (((min main_platforms comp_platforms : Nat) : Rat) /
      ((max main_platforms comp_platforms : Nat) : Rat))
  else none

/-- The catalog-size signal: included only when both catalogs have positive
length; contributes `min/max`. -/
def catalog_size_signal (main_brand competitor : BrandInsightsSchema) : Option Rat :=
  let main_product_count := main_brand.product_catalog.length
  let comp_product_count := competitor.product_catalog.length
  if 0 < main_product_count ∧ 0 < comp_product_count then
    some (((min main_product_count comp_product_count : Nat) : Rat) /
      ((max main_product_count comp_product_count : Nat) : Rat))
  else none

/-- `CompetitorAnalyzer._calculate_similarity`: accumulate `score` and
`total_factors` over the three guarded signals, then divide (0.0 when no
signal was included). -/
def _calculate_similarity (main_brand competitor : BrandInsightsSchema) : Rat :=
  let acc : Rat × Nat := (0, 0)
  let acc := match product_type_signal main_brand competitor with
    | some v => (acc.1 + v, acc.2 + 1)
    | none => acc
  let acc := match social_signal main_brand competitor with
    | some v => (acc.1 + v, acc.2 + 1)
    | none => acc
  let acc := match catalog_size_signal main_brand competitor with
    | some v => (acc.1 + v, acc.2 + 1)
    | none => acc
  if 0 < acc.2 then acc.1 / (acc.2 : Rat) else 0

/-! ## Basic summary — app/services/competitor_analyzer.py
`CompetitorAnalyzer._generate_basic_summary`.  Python's `f"{x:.2f}"`
rendering of floats is abstracted as an oracle `fmt`.  The non-empty branch
assembles the full summary string but the function body ends without a
`return` statement, so Python yields `None` there. -/

/-- `max(competitors, key=lambda c: c.similarity_score or 0)`: the first
element attaining the maximal score (strictly-greater updates only). -/
def max_by_similarity (competitors : List CompetitorSchema) : Option CompetitorSchema :=
  competitors.foldl (fun acc c =>
    match acc with
    | none => some c
    | some m =>
      if m.similarity_score.getD 0 < c.similarity_score.getD 0 then some c else some m) none

/-- `CompetitorAnalyzer._generate_basic_summary`, value as the caller sees
it: the early `return` fires for an empty competitor list; in the non-empty
path `summary` is fully assembled and then dropped because the source has no
final `return summary`, so the call evaluates to `None`. -/
def _generate_basic_summary (fmt : Rat → String) (main_brand : BrandInsightsSchema)
    (competitors : List CompetitorSchema) : Option String :=
  if competitors.isEmpty then
    some ("No competitors found for analysis of " ++
      main_brand.brand_name.getD "the brand" ++ ".")
  else
    let avg_similarity : Rat :=
      (competitors.map (fun c => c.similarity_score.getD 0)).sum / (competitors.length : Rat)
    let summary := "Analyzed " ++ toString competitors.length ++ " competitors for " ++
      main_brand.brand_name.getD "the brand" ++ ". "
    let summary := summary ++ "Average similarity score: " ++ fmt avg_similarity ++ ". "
    let summary :=
      match max_by_similarity competitors with
      | some top_competitor =>
        summary ++ "Most similar competitor: " ++
          top_competitor.competitor_name.getD "Unknown" ++
          " with similarity score of " ++ fmt (top_competitor.similarity_score.getD 0) ++ "."
      | none => summary
    let _ := summary
    none

/-! ## Orchestrator — app/services/scraper.py
`ShopifyStoreScraper.extract_insights`.  The landing-page fetch is an oracle
`fetch_landing`; the brand-name heuristics over the parsed page are an
oracle `derive_brand_name`; each of the eight gathered parser tasks is an
`Except`, modelling `asyncio.gather(..., return_exceptions=True)`. -/

/-- The eight gathered parser-task results, in source order.  The policies
dict is an association list keyed by `'privacy' | 'return' | 'refund' |
'terms'`. -/
structure ExtractionResults where
  product_catalog : Except String (List ProductSchema)
  hero_products : Except String (List ProductSchema)
  policies : Except String (List (String × PolicySchema))
  faqs : Except String (List FAQSchema)
  social_handles : Except String SocialHandlesSchema
  contact_details : Except String ContactDetailsSchema
  important_links : Except String ImportantLinksSchema
  brand_context : Except String (Option String)

/-- `x if not isinstance(x, Exception) else default`. -/
def or_default {α : Type} (r : Except String α) (default : α) : α :=
  match r with
  | .ok v => v
  | .error _ => default

/-- `ShopifyStoreScraper.extract_insights`: normalize the URL, fetch the
landing page (a failed fetch makes the page-parsing step raise, which the
outer handler re-raises: the only pipeline-fatal path), derive the brand
name, substitute each field's empty default for any parser task that raised,
and assemble the record with the extraction timestamp. -/
def extract_insights (website_url : String) (fetch_landing : String → Option String)
    (derive_brand_name : String → String → Option String) (results : ExtractionResults)
    (now : Nat) : Except String BrandInsightsSchema :=
  let normalized_url := _normalize_url website_url
  match fetch_landing normalized_url with
  | none => .error ("Error extracting insights from " ++ website_url)
  | some main_page_content =>
    let brand_name := derive_brand_name main_page_content normalized_url
    let product_catalog := or_default results.product_catalog []
    let hero_products := or_default results.hero_products []
    let policies := or_default results.policies []
    let faqs := or_default results.faqs []
    let social_handles := or_default results.social_handles {}
    let contact_details := or_default results.contact_details {}
    let important_links := or_default results.important_links {}
    let brand_context := or_default results.brand_context none
    .ok { brand_name := brand_name,
          website_url := normalized_url,
          product_catalog := product_catalog,
          hero_products := hero_products,
          privacy_policy := policies.lookup "privacy",
          return_policy := policies.lookup "return",
          refund_policy := policies.lookup "refund",
          terms_of_service := policies.lookup "terms",
          faqs := faqs,
          social_handles := social_handles,
          contact_details := contact_details,
          brand_context := brand_context,
          important_links := important_links,
          extraction_timestamp := now }

/-! ## Theorems -/

/-- C3: with `maxRetries = 3` and an endpoint whose every attempt times out,
`get_page_content` makes exactly 4 attempts (1 initial + 3 retries), sleeps
`2^attempt` units between consecutive attempts (1, 2, 4), and returns `None`
rather than raising. -/
theorem get_page_content_retry_count (oracle : Nat → FetchOutcome)
    (h : ∀ i, oracle i = .timeout) :
    get_page_content oracle 3 = (none, 4, [1, 2, 4]) := by
  simp [get_page_content, fetch_loop, h, fetch_attempt_result]

/-- Witness for C3: the constant-timeout oracle at `maxRetries = 3`. -/
theorem get_page_content_retry_count_witness :
    get_page_content (fun _ => FetchOutcome.timeout) 3 = (none, 4, [1, 2, 4]) :=
  get_page_content_retry_count (fun _ => FetchOutcome.timeout) (fun _ => rfl)

/-- C7: when the first attempt of a JSON fetch receives a body that fails to
decode as JSON, `get_json` returns `None` after exactly that one attempt and
performs no back-off sleep, regardless of how many retries remain. -/
theorem get_json_decode_error_no_retry {α : Type} (oracle : Nat → JsonOutcome α)
    (h : oracle 0 = .jsonDecodeError) (retries : Nat) :
    get_json oracle retries = (none, 1, []) := by
  cases retries <;> simp [get_json, json_loop, h, json_attempt_result]

/-- Witness for C7: a decode-error oracle with 5 retries remaining. -/
theorem get_json_decode_error_no_retry_witness :
    get_json (fun _ => (JsonOutcome.jsonDecodeError : JsonOutcome Nat)) 5 = (none, 1, []) :=
  get_json_decode_error_no_retry (fun _ => JsonOutcome.jsonDecodeError) rfl 5

/-- Counterexample for C4: the source uses `url.rstrip('/')`, which removes
every trailing slash, so a URL ending in two slashes loses both, not one. -/
theorem normalize_url_double_slash_cex :
    _normalize_url "https://example.com//" = "https://example.com" ∧
    _normalize_url "https://example.com//" ≠ "https://example.com/" := by
  constructor <;> decide

/-- The head surviving `dropWhile p` does not satisfy `p`. -/
theorem dropWhile_head?_false {p : Char → Bool} :
    ∀ (l : List Char) (c : Char), (l.dropWhile p).head? = some c → p c = false := by
  intro l
  induction l with
  | nil => simp [List.dropWhile]
  | cons a t ih =>
    intro c hc
    by_cases hpa : p a = true
    · rw [List.dropWhile_cons_of_pos hpa] at hc
      exact ih c hc
    · rw [List.dropWhile_cons_of_neg hpa] at hc
      simp only [List.head?_cons, Option.some.injEq] at hc
      subst hc
      exact Bool.eq_false_iff.mpr hpa

/-- C4 amended: normalization prepends `https://` exactly when the URL
starts with neither `http://` nor `https://`, and strips every trailing
slash (so the result never ends in `/`; a URL ending in two slashes loses
both). -/
theorem normalize_url_spec (url : String) :
    (_normalize_url url).data.getLast? ≠ some '/' ∧
    (¬(py_startswith url "http://" = true ∨ py_startswith url "https://" = true) →
      _normalize_url url = rstrip_slash ("https://" ++ url)) ∧
    ((py_startswith url "http://" = true ∨ py_startswith url "https://" = true) →
      _normalize_url url = rstrip_slash url) ∧
    _normalize_url "example.com" = "https://example.com" ∧
    _normalize_url "https://example.com/" = "https://example.com" := by
  refine ⟨?_, ?_, ?_, by decide, by decide⟩
  · intro hlast
    have hdata : (_normalize_url url).data =
        (((if !(py_startswith url "http://" || py_startswith url "https://")
          then "https://" ++ url else url).data.reverse.dropWhile
            (fun c => c == '/')).reverse) := rfl
    rw [hdata, List.getLast?_reverse] at hlast
    have := dropWhile_head?_false _ _ hlast
    simp at this
  · intro hns
    have hb : (py_startswith url "http://" || py_startswith url "https://") = false := by
      cases h1 : py_startswith url "http://" <;> cases h2 : py_startswith url "https://" <;>
        simp_all
    simp [_normalize_url, hb]
  · intro hs
    have hb : (py_startswith url "http://" || py_startswith url "https://") = true := by
      rcases hs with h | h <;> simp [h]
    simp [_normalize_url, hb]

/-- Witness for C4 amended: a bare-domain input. -/
theorem normalize_url_spec_witness :
    _normalize_url "example.com" = rstrip_slash ("https://" ++ "example.com") :=
  (normalize_url_spec "example.com").2.1 (by decide)

/-- A source product whose first variant is unavailable and whose second is
available. -/
def mixed_availability_product : SourceProduct :=
  { variants := some [{ available := some false }, { available := some true }] }

/-- C8: the parsed `available` flag is true iff some variant's availability
flag is true, an absent flag counting as available, and a product with no
variant data defaulting to true; the parsed price is the first source
variant's price; and in particular the mixed `false`/`true` two-variant
product parses as available. -/
theorem parse_product_json_spec (product_data : SourceProduct) (base_url : String) :
    ((_parse_product_json product_data base_url).available = true ↔
      (product_data.variants.getD [] = [] ∨
        ∃ v ∈ product_data.variants.getD [], v.available.getD true = true)) ∧
    (_parse_product_json product_data base_url).price =
      (product_data.variants.getD []).head?.bind (fun v => v.price) ∧
    (_parse_product_json mixed_availability_product base_url).available = true := by
  refine ⟨?_, ?_, rfl⟩
  · cases hl : product_data.variants.getD [] with
    | nil => simp [_parse_product_json, hl]
    | cons a t =>
      simp [_parse_product_json, hl, List.any_map, List.any_eq_true, Function.comp]
  · cases hl : product_data.variants.getD [] with
    | nil => simp [_parse_product_json, hl]
    | cons a t => simp [_parse_product_json, hl]

/-- One parsed FAQ pair. -/
def faq_pair : FAQSchema := { question := "Q?", answer := "A" }

/-- A page oracle whose first candidate FAQ page parses to 30 pairs. -/
def faq_pages_30 : String → Option (List FAQSchema) :=
  fun u => if u == "/pages/faq" then some (List.replicate 30 faq_pair) else none

/-- Counterexample for C9: with 30 successfully parsed FAQ pairs but an
available enrichment whose output is shorter than 20 entries (the LLM is
asked to deduplicate, and a malformed-but-parseable reply can shrink the
list arbitrarily), the returned list does not have length 20, because the
cap is applied after enrichment. -/
theorem extract_faqs_cap_cex :
    (collect_faqs faq_pages_30 faq_urls).length = 30 ∧
    (extract_faqs faq_pages_30 true (fun _ => [])).length ≠ 20 := by
  constructor <;> decide

/-- C9 amended: the returned FAQ list always has length at most 20; given 30
successfully parsed pairs it has length exactly 20 whenever the enrichment
step is unavailable, or is available but returns at least 20 entries. -/
theorem extract_faqs_cap (pages : String → Option (List FAQSchema)) (llm_available : Bool)
    (structure_faqs : List FAQSchema → List FAQSchema) :
    (extract_faqs pages llm_available structure_faqs).length ≤ 20 ∧
    ((collect_faqs pages faq_urls).length = 30 → llm_available = false →
      (extract_faqs pages llm_available structure_faqs).length = 20) ∧
    ((collect_faqs pages faq_urls).length = 30 → llm_available = true →
      20 ≤ (structure_faqs (collect_faqs pages faq_urls)).length →
      (extract_faqs pages llm_available structure_faqs).length = 20) := by
  refine ⟨?_, ?_, ?_⟩
  · simp [extract_faqs]
  · intro h30 hllm
    simp [extract_faqs, hllm, h30]
  · intro h30 hllm hlen
    have hne : (collect_faqs pages faq_urls).isEmpty = false := by
      cases hc : collect_faqs pages faq_urls with
      | nil => rw [hc] at h30; simp at h30
      | cons a t => simp
    simp [extract_faqs, hllm, hne]
    omega

/-- Witness for C9 amended: 30 parsed pairs with no enrichment give exactly
20. -/
theorem extract_faqs_cap_witness :
    (extract_faqs faq_pages_30 false (fun l => l)).length = 20 :=
  (extract_faqs_cap faq_pages_30 false (fun l => l)).2.1 (by decide) rfl

/-- C6: `_generate_basic_summary` assembles the full summary string for a
non-empty competitor list but the source has no final `return`, so the call
yields `None` there; only the empty-competitor branch returns its short
string.  The spec records the full string as the intended return value, so
the truncation is a code bug. -/
theorem generate_basic_summary_truncated (fmt : Rat → String)
    (main_brand : BrandInsightsSchema) (competitors : List CompetitorSchema)
    (h : competitors ≠ []) :
    _generate_basic_summary fmt main_brand competitors = none ∧
    _generate_basic_summary fmt main_brand [] =
      some ("No competitors found for analysis of " ++
        main_brand.brand_name.getD "the brand" ++ ".") := by
  constructor
  · cases competitors with
    | nil => exact absurd rfl h
    | cons a t => simp [_generate_basic_summary]
  · simp [_generate_basic_summary]

/-- A minimal canonical record. -/
def sample_insights : BrandInsightsSchema := { website_url := "https://example.com" }

/-- A minimal competitor entry. -/
def sample_competitor : CompetitorSchema :=
  { website_url := "https://rival.com", insights := sample_insights,
    similarity_score := some (1 / 2) }

/-- Witness for C6: a one-competitor list makes the summary call yield
`None`. -/
theorem generate_basic_summary_truncated_witness :
    _generate_basic_summary (fun _ => "0.50") sample_insights [sample_competitor] = none ∧
    _generate_basic_summary (fun _ => "0.50") sample_insights [] =
      some ("No competitors found for analysis of " ++
        sample_insights.brand_name.getD "the brand" ++ ".") :=
  generate_basic_summary_truncated (fun _ => "0.50") sample_insights [sample_competitor]
    (by simp)

/-- C1: once the landing page is fetched successfully, every parser-task
exception is absorbed and replaced by that field's empty default, so even if
all eight sub-extractors fail the pipeline returns a record with the
normalized URL and timestamp populated and every collection field empty, and
it never re-raises a parser error (`isOk` holds for arbitrary task
results). -/
theorem extract_insights_absorbs_parser_failures (website_url main_page_content : String)
    (fetch_landing : String → Option String)
    (derive_brand_name : String → String → Option String) (now : Nat)
    (hfetch : fetch_landing (_normalize_url website_url) = some main_page_content) :
    (∀ results : ExtractionResults,
      (extract_insights website_url fetch_landing derive_brand_name results now).isOk = true) ∧
    (∀ (results : ExtractionResults) (e1 e2 e3 e4 e5 e6 e7 e8 : String),
      results.product_catalog = .error e1 → results.hero_products = .error e2 →
      results.policies = .error e3 → results.faqs = .error e4 →
      results.social_handles = .error e5 → results.contact_details = .error e6 →
      results.important_links = .error e7 → results.brand_context = .error e8 →
      extract_insights website_url fetch_landing derive_brand_name results now =
        .ok { brand_name := derive_brand_name main_page_content (_normalize_url website_url),
              website_url := _normalize_url website_url,
              extraction_timestamp := now }) := by
  constructor
  · intro results
    simp [extract_insights, hfetch, Except.isOk, Except.toBool]
  · intro results e1 e2 e3 e4 e5 e6 e7 e8 h1 h2 h3 h4 h5 h6 h7 h8
    simp [extract_insights, hfetch, h1, h2, h3, h4, h5, h6, h7, h8, or_default]

/-- The eight parser tasks all failing. -/
def all_failed_results : ExtractionResults :=
  { product_catalog := .error "boom", hero_products := .error "boom",
    policies := .error "boom", faqs := .error "boom",
    social_handles := .error "boom", contact_details := .error "boom",
    important_links := .error "boom", brand_context := .error "boom" }

/-- Witness for C1: a concrete run in which the landing fetch succeeds and
all eight parser tasks raise. -/
theorem extract_insights_absorbs_parser_failures_witness :
    extract_insights "example.com" (fun _ => some "<html></html>") (fun _ _ => none)
      all_failed_results 7 =
      .ok { website_url := "https://example.com", extraction_timestamp := 7 } := by
  have h := (extract_insights_absorbs_parser_failures "example.com" "<html></html>"
    (fun _ => some "<html></html>") (fun _ _ => none) 7 rfl).2
    all_failed_results "boom" "boom" "boom" "boom" "boom" "boom" "boom" "boom"
    rfl rfl rfl rfl rfl rfl rfl rfl
  rw [h]
  rfl

/-- Helper for C10: a parenthesis character survives the separator-stripping
step of `validate_phone_number` (the stripped class holds only whitespace,
hyphen, dollar and plus), so the digits-only check fails. -/
theorem validate_phone_paren_false (phone : String) (c : Char)
    (hc : c = '(' ∨ c = ')') (hm : c ∈ phone.data) :
    validate_phone_number phone = false := by
  rw [Bool.eq_false_iff]
  intro htrue
  unfold validate_phone_number at htrue
  simp only [Bool.and_eq_true, List.all_eq_true] at htrue
  have hkeep : c ∈ phone.data.filter
      (fun c => !(is_py_space c || c == '-' || c == '$' || c == '+')) := by
    refine List.mem_filter.mpr ⟨hm, ?_⟩
    rcases hc with rfl | rfl <;> decide
  have hdig := htrue.2 c hkeep
  rcases hc with rfl | rfl <;> exact absurd hdig (by decide)

/-- Helper for C10: `py_strip` only removes characters, so membership in the
stripped string implies membership in the original. -/
theorem mem_of_mem_py_strip (s : String) (c : Char) (h : c ∈ (py_strip s).data) :
    c ∈ s.data := by
  unfold py_strip at h
  simp only [List.mem_reverse] at h
  have h1 := (List.dropWhile_sublist is_py_space).subset h
  rw [List.mem_reverse] at h1
  exact (List.dropWhile_sublist is_py_space).subset h1

/-- C10: any phone string containing `'('` or `')'` fails
`validate_phone_number` (the separator-stripping removes only whitespace,
hyphens, `'$'` and `'+'`), and consequently no entry of the extracted
contact phone list contains a parenthesis, so parenthesized phone forms are
never included. -/
theorem paren_phones_never_extracted :
    (∀ phone : String, ('(' ∈ phone.data ∨ ')' ∈ phone.data) →
      validate_phone_number phone = false) ∧
    (∀ (page_phones : List String) (contact_phones : Option (List String)),
      ∀ s ∈ extract_contact_phones page_phones contact_phones,
        '(' ∉ s.data ∧ ')' ∉ s.data) := by
  have hval : ∀ phone : String, ('(' ∈ phone.data ∨ ')' ∈ phone.data) →
      validate_phone_number phone = false := by
    intro phone h
    rcases h with h | h
    · exact validate_phone_paren_false phone '(' (Or.inl rfl) h
    · exact validate_phone_paren_false phone ')' (Or.inr rfl) h
  refine ⟨hval, ?_⟩
  have hstripped : ∀ p : String, validate_phone_number p = true →
      '(' ∉ (py_strip p).data ∧ ')' ∉ (py_strip p).data := by
    intro p hp
    constructor <;> intro hmem
    · have := hval p (Or.inl (mem_of_mem_py_strip p '(' hmem))
      rw [hp] at this; cases this
    · have := hval p (Or.inr (mem_of_mem_py_strip p ')' hmem))
      rw [hp] at this; cases this
  intro page_phones contact_phones s hs
  have hsrc : ∃ p, validate_phone_number p = true ∧ s = py_strip p := by
    unfold extract_contact_phones at hs
    cases contact_phones with
    | none =>
      simp only at hs
      have := List.mem_of_mem_take hs
      obtain ⟨p, hp, rfl⟩ := List.mem_map.mp this
      exact ⟨p, (List.mem_filter.mp hp).2, rfl⟩
    | some additional_phones =>
      simp only at hs
      have := List.mem_of_mem_take hs
      rcases List.mem_append.mp this with h1 | h2
      · have := List.mem_of_mem_take h1
        obtain ⟨p, hp, rfl⟩ := List.mem_map.mp this
        exact ⟨p, (List.mem_filter.mp hp).2, rfl⟩
      · obtain ⟨p, hp, rfl⟩ := List.mem_map.mp h2
        have hb := (List.mem_filter.mp hp).2
        exact ⟨p, (Bool.and_eq_true _ _ ▸ hb).1, rfl⟩
  obtain ⟨p, hp, rfl⟩ := hsrc
  exact hstripped p hp

/-- Witness for C10: the canonical parenthesized phone form is rejected by
the validator. -/
theorem paren_phones_never_extracted_witness :
    validate_phone_number "(123) 456-7890" = false :=
  paren_phones_never_extracted.1 "(123) 456-7890" (Or.inl (by decide))

/-- Counterexample for C5: `SocialExtractor` performs an unconditional
`setattr` with no already-set guard (unlike `LinkExtractor`), so with two
Instagram links in one scan the second link's handle overwrites the first:
the first match does not win.  The `validate_url` oracle accepts both
well-formed `https://` links, as the third-party validator does. -/
theorem extract_social_handles_overwrite_cex :
    (extract_social_handles (fun _ => true)
      ["https://instagram.com/first", "https://instagram.com/second"]).instagram =
        some "second" ∧
    (extract_social_handles (fun _ => true)
      ["https://instagram.com/first", "https://instagram.com/second"]).instagram ≠
        some "first" := by
  constructor <;> decide

/-- Helper for C5: a platform reported by the link-scan loop comes from the
scanned pattern list. -/
theorem link_match_mem (validate_url : String → Bool) (href : String) :
    ∀ (ps : List (String × String × List String)) (p h : String),
      link_match validate_url href ps = some (p, h) → p ∈ ps.map (fun x => x.1) := by
  intro ps
  induction ps with
  | nil => intro p h hm; simp [link_match] at hm
  | cons a t ih =>
    intro p h hm
    unfold link_match at hm
    by_cases hc : contains_sub href a.1 = true
    · rw [if_pos hc] at hm
      cases hx : extract_social_handle validate_url href a.1 with
      | none => simp only [hx] at hm; exact List.mem_cons_of_mem _ (ih p h hm)
      | some handle =>
        simp only [hx] at hm
        by_cases he : (handle == "") = true
        · rw [if_pos he] at hm; exact List.mem_cons_of_mem _ (ih p h hm)
        · rw [if_neg he] at hm
          obtain ⟨rfl, rfl⟩ : a.1 = p ∧ handle = h := by
            cases hm; exact ⟨rfl, rfl⟩
          exact List.mem_cons_self _ _
    · rw [if_neg hc] at hm; exact List.mem_cons_of_mem _ (ih p h hm)

/-- Helper for C5: reading back a platform field just written by the
`setattr` model. -/
theorem get_set_platform (sh : SocialHandlesSchema) (p h : String)
    (hp : p ∈ social_patterns.map (fun x => x.1)) :
    get_platform (set_platform sh p h) p = some h := by
  simp only [social_patterns, List.map_cons, List.map_nil, List.mem_cons,
    List.not_mem_nil, or_false] at hp
  rcases hp with rfl | rfl | rfl | rfl | rfl | rfl | rfl <;> rfl

/-- C5 amended: within one scan the LAST hyperlink whose match succeeds for a
platform determines that platform's handle — each successful match performs
an unguarded `setattr`, overwriting any earlier value, so appending a link
that matches platform `p` with handle `h` forces the final handle of `p` to
`h` regardless of the links scanned before it. -/
theorem social_last_match_wins (validate_url : String → Bool) (links : List String)
    (href p h : String)
    (hm : link_match validate_url href social_patterns = some (p, h)) :
    get_platform (extract_social_handles validate_url (links ++ [href])) p = some h := by
  have hfold : extract_social_handles validate_url (links ++ [href]) =
      process_link validate_url (extract_social_handles validate_url links) href := by
    simp [extract_social_handles, List.foldl_append]
  rw [hfold]
  unfold process_link
  rw [hm]
  exact get_set_platform _ p h (link_match_mem validate_url href social_patterns p h hm)

/-- Witness for C5 amended: a later Instagram link overrides the handle set
from an earlier one. -/
theorem social_last_match_wins_witness :
    get_platform (extract_social_handles (fun _ => true)
      (["https://instagram.com/old"] ++ ["https://instagram.com/new"])) "instagram" =
      some "new" :=
  social_last_match_wins (fun _ => true) ["https://instagram.com/old"]
    "https://instagram.com/new" "instagram" "new" (by decide)

/-- Helper for C2: a sum of `n` values each in `[0, 1]` divided by `n` is in
`[0, 1]`. -/
theorem rat_mean_bounds (s : Rat) (n : Nat) (hn : 0 < n) (h0 : 0 ≤ s) (h1 : s ≤ n) :
    0 ≤ s / (n : Rat) ∧ s / (n : Rat) ≤ 1 := by
  have hn' : (0 : Rat) < (n : Rat) := by exact_mod_cast hn
  exact ⟨div_nonneg h0 hn'.le, (div_le_one hn').mpr h1⟩

/-- Helper for C2: an included product-type signal lies in `[0, 1]`. -/
theorem product_type_signal_bounds (A B : BrandInsightsSchema) (v : Rat)
    (h : product_type_signal A B = some v) : 0 ≤ v ∧ v ≤ 1 := by
  unfold product_type_signal at h
  dsimp only [] at h
  split at h
  · split at h
    · simp only [Option.some.injEq] at h
      subst h
      split
      · rename_i hu
        have hu' : (0 : Rat) <
            ((lower_type_set A.product_catalog ∪ lower_type_set B.product_catalog).card : Rat) := by
          exact_mod_cast hu
        refine ⟨div_nonneg (by positivity) hu'.le, (div_le_one hu').mpr ?_⟩
        exact_mod_cast Finset.card_le_card Finset.inter_subset_union
      · norm_num
    · cases h
  · cases h

/-- Helper for C2: a `min/max` ratio of two positive counts lies in
`[0, 1]`. -/
theorem ratio_bounds (a b : Nat) (ha : 0 < a) (hb : 0 < b) :
    0 ≤ ((min a b : Nat) : Rat) / ((max a b : Nat) : Rat) ∧
    ((min a b : Nat) : Rat) / ((max a b : Nat) : Rat) ≤ 1 := by
  have hmax : (0 : Rat) < ((max a b : Nat) : Rat) := by
    exact_mod_cast lt_max_of_lt_left ha
  refine ⟨div_nonneg (by positivity) hmax.le, (div_le_one hmax).mpr ?_⟩
  exact_mod_cast min_le_max

/-- Helper for C2: an included social-platform signal lies in `[0, 1]`. -/
theorem social_signal_bounds (A B : BrandInsightsSchema) (v : Rat)
    (h : social_signal A B = some v) : 0 ≤ v ∧ v ≤ 1 := by
  unfold social_signal at h
  dsimp only [] at h
  split at h
  · rename_i hc
    simp only [Option.some.injEq] at h
    subst h
    exact ratio_bounds _ _ hc.1 hc.2
  · cases h

/-- Helper for C2: an included catalog-size signal lies in `[0, 1]`. -/
theorem catalog_size_signal_bounds (A B : BrandInsightsSchema) (v : Rat)
    (h : catalog_size_signal A B = some v) : 0 ≤ v ∧ v ≤ 1 := by
  unfold catalog_size_signal at h
  dsimp only [] at h
  split at h
  · rename_i hc
    simp only [Option.some.injEq] at h
    subst h
    exact ratio_bounds _ _ hc.1 hc.2
  · cases h

/-- Helper for C2: equal non-empty type sets over non-empty catalogs give an
included Jaccard signal of exactly 1. -/
theorem product_type_signal_eq_one (A B : BrandInsightsSchema)
    (h1 : A.product_catalog ≠ []) (h2 : B.product_catalog ≠ [])
    (h3 : lower_type_set A.product_catalog = lower_type_set B.product_catalog)
    (h4 : lower_type_set A.product_catalog ≠ ∅) :
    product_type_signal A B = some 1 := by
  have he1 : A.product_catalog.isEmpty = false := by
    cases hc : A.product_catalog with
    | nil => exact absurd hc h1
    | cons a t => rfl
  have he2 : B.product_catalog.isEmpty = false := by
    cases hc : B.product_catalog with
    | nil => exact absurd hc h2
    | cons a t => rfl
  unfold product_type_signal
  dsimp only []
  rw [if_pos (by simp [he1, he2])]
  rw [if_pos ⟨h4, h3 ▸ h4⟩]
  rw [← h3, Finset.inter_self, Finset.union_self]
  have hpos : 0 < (lower_type_set A.product_catalog).card :=
    Finset.card_pos.mpr (Finset.nonempty_iff_ne_empty.mpr h4)
  rw [if_pos hpos]
  congr 1
  exact div_self (by exact_mod_cast hpos.ne')

/-- Helper for C2: equal positive platform counts give an included social
signal of exactly 1. -/
theorem social_signal_eq_one (A B : BrandInsightsSchema)
    (h1 : social_platform_count A.social_handles = social_platform_count B.social_handles)
    (h2 : 0 < social_platform_count A.social_handles) :
    social_signal A B = some 1 := by
  unfold social_signal
  dsimp only []
  rw [if_pos ⟨h2, h1 ▸ h2⟩, ← h1, min_self, max_self]
  congr 1
  exact div_self (by exact_mod_cast h2.ne')

/-- Helper for C2: equal positive catalog sizes give an included size signal
of exactly 1. -/
theorem catalog_size_signal_eq_one (A B : BrandInsightsSchema)
    (h1 : A.product_catalog.length = B.product_catalog.length)
    (h2 : 0 < A.product_catalog.length) :
    catalog_size_signal A B = some 1 := by
  unfold catalog_size_signal
  dsimp only []
  rw [if_pos ⟨h2, h1 ▸ h2⟩, ← h1, min_self, max_self]
  congr 1
  exact div_self (by exact_mod_cast h2.ne')

/-- C2: the similarity score — the unweighted mean of the included signals —
always lies in `[0.0, 1.0]`; it is `0.0` (not undefined) when no signal is
comparable, and `1.0` when all three signals are comparable and maximally
equal (equal non-empty lower-cased type sets, equal positive platform
counts, equal positive catalog sizes). -/
theorem calculate_similarity_spec (A B : BrandInsightsSchema) :
    (0 ≤ _calculate_similarity A B ∧ _calculate_similarity A B ≤ 1) ∧
    (product_type_signal A B = none → social_signal A B = none →
      catalog_size_signal A B = none → _calculate_similarity A B = 0) ∧
    (A.product_catalog ≠ [] → B.product_catalog ≠ [] →
      lower_type_set A.product_catalog = lower_type_set B.product_catalog →
      lower_type_set A.product_catalog ≠ ∅ →
      social_platform_count A.social_handles = social_platform_count B.social_handles →
      0 < social_platform_count A.social_handles →
      A.product_catalog.length = B.product_catalog.length →
      _calculate_similarity A B = 1) := by
  refine ⟨?_, ?_, ?_⟩
  · rcases h1 : product_type_signal A B with _ | v1 <;>
      rcases h2 : social_signal A B with _ | v2 <;>
      rcases h3 : catalog_size_signal A B with _ | v3 <;>
      simp only [_calculate_similarity, h1, h2, h3]
    · norm_num
    · have b3 := catalog_size_signal_bounds A B v3 h3
      have := rat_mean_bounds (0 + v3) 1 (by norm_num) (by linarith [b3.1]) (by push_cast; linarith [b3.2])
      simpa using this
    · have b2 := social_signal_bounds A B v2 h2
      have := rat_mean_bounds (0 + v2) 1 (by norm_num) (by linarith [b2.1]) (by push_cast; linarith [b2.2])
      simpa using this
    · have b2 := social_signal_bounds A B v2 h2
      have b3 := catalog_size_signal_bounds A B v3 h3
      have := rat_mean_bounds (0 + v2 + v3) 2 (by norm_num) (by linarith [b2.1, b3.1])
        (by push_cast; linarith [b2.2, b3.2])
      simpa using this
    · have b1 := product_type_signal_bounds A B v1 h1
      have := rat_mean_bounds (0 + v1) 1 (by norm_num) (by linarith [b1.1]) (by push_cast; linarith [b1.2])
      simpa using this
    · have b1 := product_type_signal_bounds A B v1 h1
      have b3 := catalog_size_signal_bounds A B v3 h3
      have := rat_mean_bounds (0 + v1 + v3) 2 (by norm_num) (by linarith [b1.1, b3.1])
        (by push_cast; linarith [b1.2, b3.2])
      simpa using this
    · have b1 := product_type_signal_bounds A B v1 h1
      have b2 := social_signal_bounds A B v2 h2
      have := rat_mean_bounds (0 + v1 + v2) 2 (by norm_num) (by linarith [b1.1, b2.1])
        (by push_cast; linarith [b1.2, b2.2])
      simpa using this
    · have b1 := product_type_signal_bounds A B v1 h1
      have b2 := social_signal_bounds A B v2 h2
      have b3 := catalog_size_signal_bounds A B v3 h3
      have := rat_mean_bounds (0 + v1 + v2 + v3) 3 (by norm_num)
        (by linarith [b1.1, b2.1, b3.1]) (by push_cast; linarith [b1.2, b2.2, b3.2])
      simpa using this
  · intro h1 h2 h3
    simp [_calculate_similarity, h1, h2, h3]
  · intro h1 h2 h3 h4 h5 h6 h7
    have e1 := product_type_signal_eq_one A B h1 h2 h3 h4
    have e2 := social_signal_eq_one A B h5 h6
    have e3 := catalog_size_signal_eq_one A B h7
      (by cases hc : A.product_catalog with
          | nil => exact absurd hc h1
          | cons a t => simp [hc])
    simp only [_calculate_similarity, e1, e2, e3]
    norm_num

/-- A one-product record with one social handle, for the C2 witness. -/
def witness_record : BrandInsightsSchema :=
  { website_url := "https://a.com",
    product_catalog := [{ title := "Shoe", product_type := some "Shoes" }],
    social_handles := { instagram := some "brand" } }

/-- Witness for C2: a record compared with itself has all three signals
comparable and maximally equal, and scores exactly 1. -/
theorem calculate_similarity_spec_witness :
    _calculate_similarity witness_record witness_record = 1 :=
  (calculate_similarity_spec witness_record witness_record).2.2
    (by decide) (by decide) rfl (by decide) rfl (by decide) rfl

end Deepsolv
